import Mathlib

/-!
Verification of the NGP (Nearest-Grid-Point) particle shape function from
`include/picongpu/particles/shapes/NGP.hpp`.

The C++ code defines, inside `picongpu::particles::shapes`:

* `shared_NGP::NGP` with `static constexpr int support = 1;`
* `NGP : public shared_NGP::NGP` containing
  * `ChargeAssignment : public shared_NGP::NGP` whose `operator()(float_X x)`
    computes `bool below_half = -0.5 <= x && x < 0.5; return float_X(below_half);`
  * `ChargeAssignmentOnSupport : public shared_NGP::NGP` whose
    `operator()(float_X)` ignores its argument and returns `1.0`.

The evaluators perform no floating-point arithmetic, only ordered comparisons
against the exactly representable constants `-0.5` and `0.5`, and return the
exactly representable values `0.0` and `1.0`.  Hence on every non-NaN
floating-point input the computation coincides with the same computation on
the rational number the input denotes.  We therefore model coordinates as `ℚ`.
For the NaN behaviour of the comparisons we additionally model `float_X`
values as `FloatX` (a rational or NaN) with IEEE-style ordered comparisons,
which are false whenever an operand is NaN.
-/

/-- `static constexpr int support = 1;` of the base struct `shared_NGP::NGP`. -/
def shared_NGP.NGP.support : ℤ := 1

/-- `NGP` inherits `support` from its base `shared_NGP::NGP`. -/
def NGP.support : ℤ := shared_NGP.NGP.support

/-- `NGP::ChargeAssignment` inherits `support` from its base `shared_NGP::NGP`. -/
def NGP.ChargeAssignment.support : ℤ := shared_NGP.NGP.support

/-- `NGP::ChargeAssignmentOnSupport` inherits `support` from its base
`shared_NGP::NGP`. -/
def NGP.ChargeAssignmentOnSupport.support : ℤ := shared_NGP.NGP.support

/-- The C++ conversion of a `bool` to `float_X`: `true ↦ 1.0`, `false ↦ 0.0`. -/
def boolToFloatX (b : Bool) : ℚ := if b then 1 else 0

/-- `bool const below_half = -0.5_X <= x && x < 0.5_X;` from
`NGP::ChargeAssignment::operator()`. -/
def NGP.ChargeAssignment.below_half (x : ℚ) : Bool :=
  decide (-(1 / 2 : ℚ) ≤ x) && decide (x < (1 / 2 : ℚ))

/-- `NGP::ChargeAssignment::operator()`: `return float_X( below_half );`. -/
def NGP.ChargeAssignment.eval (x : ℚ) : ℚ :=
  boolToFloatX (NGP.ChargeAssignment.below_half x)

/-- `NGP::ChargeAssignmentOnSupport::operator()`: ignores its argument and
`return 1.0_X;`. -/
def NGP.ChargeAssignmentOnSupport.eval (_ : ℚ) : ℚ := 1

/-- A `float_X` value: either NaN or (exactly) a rational number.  Every
finite or infinite floating-point value denotes a rational or is handled by
the comparisons like the rational it bounds; only NaN needs a separate case
because every ordered comparison involving NaN is false. -/
inductive FloatX where
  | nan : FloatX
  | val : ℚ → FloatX
deriving DecidableEq

/-- IEEE-style ordered `<=` on `float_X`: false if an operand is NaN. -/
def FloatX.le : FloatX → FloatX → Bool
  | FloatX.val a, FloatX.val b => decide (a ≤ b)
  | _, _ => false

/-- IEEE-style ordered `<` on `float_X`: false if an operand is NaN. -/
def FloatX.lt : FloatX → FloatX → Bool
  | FloatX.val a, FloatX.val b => decide (a < b)
  | _, _ => false

/-- `NGP::ChargeAssignment::operator()` on the `float_X` model with NaN:
`bool below_half = -0.5 <= x && x < 0.5; return float_X(below_half);`. -/
def NGP.ChargeAssignment.evalF (x : FloatX) : FloatX :=
  FloatX.val (boolToFloatX (FloatX.le (FloatX.val (-(1 / 2))) x && FloatX.lt x (FloatX.val (1 / 2))))

/-- A sequence of invocations of `ChargeAssignment::operator()`, one result
per input, modelling repeated calls from the deposition loop. -/
def NGP.ChargeAssignment.runTrace (inputs : List ℚ) : List ℚ :=
  inputs.map NGP.ChargeAssignment.eval

/-- A sequence of invocations of `ChargeAssignmentOnSupport::operator()`. -/
def NGP.ChargeAssignmentOnSupport.runTrace (inputs : List ℚ) : List ℚ :=
  inputs.map NGP.ChargeAssignmentOnSupport.eval

/-- The boolean `below_half` is true exactly on the half-open window. -/
theorem below_half_iff (x : ℚ) :
    NGP.ChargeAssignment.below_half x = true ↔ (-(1 / 2 : ℚ) ≤ x ∧ x < 1 / 2) := by
  simp [NGP.ChargeAssignment.below_half]

/-- The general evaluator written as a single conditional. -/
theorem eval_eq_ite (x : ℚ) :
    NGP.ChargeAssignment.eval x =
      if -(1 / 2 : ℚ) ≤ x ∧ x < 1 / 2 then 1 else 0 := by
  by_cases h : (-(1 / 2 : ℚ) ≤ x ∧ x < 1 / 2)
  · rw [if_pos h]
    simp [NGP.ChargeAssignment.eval, boolToFloatX, (below_half_iff x).mpr h]
  · rw [if_neg h]
    have hb : NGP.ChargeAssignment.below_half x = false := by
      cases hb : NGP.ChargeAssignment.below_half x
      · rfl
      · exact absurd ((below_half_iff x).mp hb) h
    simp [NGP.ChargeAssignment.eval, boolToFloatX, hb]

/-- The shifted general evaluator as an indicator of the rounded cell index. -/
theorem eval_sub_intCast (x : ℚ) (k : ℤ) :
    NGP.ChargeAssignment.eval (x - (k : ℚ)) =
      if ⌊x + 1 / 2⌋ = k then 1 else 0 := by
  rw [eval_eq_ite]
  have hiff : (-(1 / 2 : ℚ) ≤ x - (k : ℚ) ∧ x - (k : ℚ) < 1 / 2) ↔ ⌊x + 1 / 2⌋ = k := by
    rw [Int.floor_eq_iff]
    constructor
    · rintro ⟨h₁, h₂⟩
      exact ⟨by linarith, by linarith⟩
    · rintro ⟨h₁, h₂⟩
      exact ⟨by linarith, by linarith⟩
  by_cases h : ⌊x + 1 / 2⌋ = k
  · rw [if_pos (hiff.mpr h), if_pos h]
  · rw [if_neg (fun hc => h (hiff.mp hc)), if_neg h]

/-- Result of one invocation in a mapped trace: it is determined by the input
at that position alone. -/
theorem runTrace_get_at (f : ℚ → ℚ) (pre post : List ℚ) (x : ℚ) :
    (List.map f (pre ++ x :: post)).get? pre.length = some (f x) := by
  induction pre with
  | nil => rfl
  | cons a t ih => simpa using ih

/-- C1: the general evaluator `NGP::ChargeAssignment::operator()` returns
exactly `1.0` when `-0.5 <= x < 0.5` and exactly `0.0` otherwise; the
half-open boundary is exact: it returns `1.0` at `x = -0.5` and `0.0` at
`x = 0.5`. -/
theorem NGP.chargeAssignment_window_exact :
    (∀ x : ℚ, NGP.ChargeAssignment.eval x =
      if -(1 / 2 : ℚ) ≤ x ∧ x < 1 / 2 then 1 else 0) ∧
    NGP.ChargeAssignment.eval (-(1 / 2)) = 1 ∧
    NGP.ChargeAssignment.eval (1 / 2) = 0 := by
  refine ⟨eval_eq_ite, ?_, ?_⟩
  · rw [eval_eq_ite]
    norm_num
  · rw [eval_eq_ite]
    norm_num

/-- C2: partition of unity — for every coordinate `x`, summing the general
evaluator over any finite set of integer grid offsets `k` that covers the
support (i.e. contains the unique nearest grid point `⌊x + 1/2⌋`) yields
exactly `1`. -/
theorem NGP.partition_of_unity (x : ℚ) (s : Finset ℤ)
    (h : ⌊x + 1 / 2⌋ ∈ s) :
    ∑ k ∈ s, NGP.ChargeAssignment.eval (x - (k : ℚ)) = 1 := by
  have hsum : ∑ k ∈ s, NGP.ChargeAssignment.eval (x - (k : ℚ)) =
      ∑ k ∈ s, if ⌊x + 1 / 2⌋ = k then (1 : ℚ) else 0 :=
    Finset.sum_congr rfl (fun k _ => eval_sub_intCast x k)
  rw [hsum, Finset.sum_ite_eq, if_pos h]

/-- Witness for C2 at `x = 1/4` with the covering offset set `{0}`. -/
theorem NGP.partition_of_unity_witness :
    ⌊(1 / 4 : ℚ) + 1 / 2⌋ ∈ ({0} : Finset ℤ) ∧
    ∑ k ∈ ({0} : Finset ℤ), NGP.ChargeAssignment.eval ((1 / 4 : ℚ) - (k : ℚ)) = 1 :=
  have hmem : ⌊(1 / 4 : ℚ) + 1 / 2⌋ ∈ ({0} : Finset ℤ) :=
    Finset.mem_singleton.mpr (by rw [Int.floor_eq_iff]; norm_num)
  ⟨hmem, NGP.partition_of_unity (1 / 4) {0} hmem⟩

/-- C3: inside the support window `[-1/2, 1/2)` the general evaluator and the
support-restricted evaluator return the same value. -/
theorem NGP.general_eq_onSupport_within_support (x : ℚ)
    (h₁ : -(1 / 2 : ℚ) ≤ x) (h₂ : x < 1 / 2) :
    NGP.ChargeAssignment.eval x = NGP.ChargeAssignmentOnSupport.eval x := by
  rw [eval_eq_ite, if_pos ⟨h₁, h₂⟩]
  rfl

/-- Witness for C3 at `x = 0`. -/
theorem NGP.general_eq_onSupport_within_support_witness :
    -(1 / 2 : ℚ) ≤ 0 ∧ (0 : ℚ) < 1 / 2 ∧
    NGP.ChargeAssignment.eval 0 = NGP.ChargeAssignmentOnSupport.eval 0 :=
  ⟨by norm_num, by norm_num,
    NGP.general_eq_onSupport_within_support 0 (by norm_num) (by norm_num)⟩

/-- C4: `NGP::ChargeAssignmentOnSupport::operator()` returns exactly `1.0`
for every input, ignoring its argument entirely. -/
theorem NGP.onSupport_const_one :
    ∀ x : ℚ, NGP.ChargeAssignmentOnSupport.eval x = 1 :=
  fun _ => rfl

/-- C5: non-negativity and boundedness — the weight returned by either
evaluator always lies in `[0, 1]`. -/
theorem NGP.weights_mem_unit_interval :
    ∀ x : ℚ,
      (0 ≤ NGP.ChargeAssignment.eval x ∧ NGP.ChargeAssignment.eval x ≤ 1) ∧
      (0 ≤ NGP.ChargeAssignmentOnSupport.eval x ∧
        NGP.ChargeAssignmentOnSupport.eval x ≤ 1) := by
  intro x
  refine ⟨?_, by norm_num [NGP.ChargeAssignmentOnSupport.eval]⟩
  rw [eval_eq_ite]
  by_cases h : (-(1 / 2 : ℚ) ≤ x ∧ x < 1 / 2)
  · rw [if_pos h]
    norm_num
  · rw [if_neg h]
    norm_num

/-- C6: the published support descriptor of the NGP shape is the integer
constant `1`, hence an integer `≥ 1`. -/
theorem NGP.support_eq_one :
    NGP.support = 1 ∧ 1 ≤ NGP.support :=
  ⟨rfl, le_refl 1⟩

/-- C7: determinism and purity — in a trace of invocations, the result at a
position depends only on the input at that position: it equals the pure value
of the evaluator there, independently of how many invocations precede or
follow it (for both evaluators). -/
theorem NGP.evaluators_pure_deterministic :
    ∀ (p₁ q₁ p₂ q₂ : List ℚ) (x : ℚ),
      (NGP.ChargeAssignment.runTrace (p₁ ++ x :: q₁)).get? p₁.length =
        some (NGP.ChargeAssignment.eval x) ∧
      (NGP.ChargeAssignment.runTrace (p₂ ++ x :: q₂)).get? p₂.length =
        (NGP.ChargeAssignment.runTrace (p₁ ++ x :: q₁)).get? p₁.length ∧
      (NGP.ChargeAssignmentOnSupport.runTrace (p₁ ++ x :: q₁)).get? p₁.length =
        some (NGP.ChargeAssignmentOnSupport.eval x) ∧
      (NGP.ChargeAssignmentOnSupport.runTrace (p₂ ++ x :: q₂)).get? p₂.length =
        (NGP.ChargeAssignmentOnSupport.runTrace (p₁ ++ x :: q₁)).get? p₁.length := by
  intro p₁ q₁ p₂ q₂ x
  have h₁ := runTrace_get_at NGP.ChargeAssignment.eval p₁ q₁ x
  have h₂ := runTrace_get_at NGP.ChargeAssignment.eval p₂ q₂ x
  have h₃ := runTrace_get_at NGP.ChargeAssignmentOnSupport.eval p₁ q₁ x
  have h₄ := runTrace_get_at NGP.ChargeAssignmentOnSupport.eval p₂ q₂ x
  exact ⟨h₁, by unfold NGP.ChargeAssignment.runTrace; rw [h₂, h₁],
    h₃, by unfold NGP.ChargeAssignmentOnSupport.runTrace; rw [h₄, h₃]⟩

/-- C8: on NaN input, the general evaluator returns `0.0`: both ordered
comparisons against `-0.5` and `0.5` are false for NaN, so NaN is treated as
outside the support; on every non-NaN value the NaN-aware model agrees with
the rational evaluator. -/
theorem NGP.evalF_nan_eq_zero :
    NGP.ChargeAssignment.evalF FloatX.nan = FloatX.val 0 ∧
    ∀ q : ℚ, NGP.ChargeAssignment.evalF (FloatX.val q) =
      FloatX.val (NGP.ChargeAssignment.eval q) :=
  ⟨rfl, fun _ => rfl⟩

/-- C9: the general evaluator is two-valued — its result is exactly `0.0` or
exactly `1.0` for every input, in the rational model and in the NaN-aware
model alike. -/
theorem NGP.eval_two_valued :
    (∀ x : ℚ, NGP.ChargeAssignment.eval x = 0 ∨ NGP.ChargeAssignment.eval x = 1) ∧
    (∀ y : FloatX, NGP.ChargeAssignment.evalF y = FloatX.val 0 ∨
      NGP.ChargeAssignment.evalF y = FloatX.val 1) := by
  constructor
  · intro x
    unfold NGP.ChargeAssignment.eval boolToFloatX
    cases NGP.ChargeAssignment.below_half x
    · exact Or.inl rfl
    · exact Or.inr rfl
  · intro y
    unfold NGP.ChargeAssignment.evalF boolToFloatX
    cases FloatX.le (FloatX.val (-(1 / 2))) y && FloatX.lt y (FloatX.val (1 / 2))
    · exact Or.inl rfl
    · exact Or.inr rfl

/-- C10: the support constant is consistent across the whole NGP family —
`NGP`, `NGP::ChargeAssignment` and `NGP::ChargeAssignmentOnSupport` all see
the same inherited `shared_NGP::NGP::support`, equal to `1`. -/
theorem NGP.support_shared_consistent :
    NGP.support = shared_NGP.NGP.support ∧
    NGP.ChargeAssignment.support = shared_NGP.NGP.support ∧
    NGP.ChargeAssignmentOnSupport.support = shared_NGP.NGP.support ∧
    shared_NGP.NGP.support = 1 :=
  ⟨rfl, rfl, rfl, rfl⟩
